import Mathlib

/-!
Verification of `custom_components/color_palette_extractor` (services.py, const.py).

The component extracts dominant colors from an image (URL or local path) and
forwards them to the platform's `light.turn_on` service.  External
collaborators (the allowlist predicates, the HTTP client, the ColorThief
quantizer / PIL decoder) are modelled as an environment of abstract functions;
everything else is translated from `services.py`.  Side effects (network GET,
local file open, error logs, downstream dispatch calls) are recorded in an
event trace returned alongside each result.
-/

namespace ColorPaletteExtractor

/-- An (R,G,B) triple as produced by ColorThief. -/
structure RGB where
  r : Nat
  g : Nat
  b : Nat
deriving DecidableEq

/-- An abstract decoded image (the result of PIL successfully opening the
image bytes inside the ColorThief constructor). -/
structure Image where
  tag : Nat
deriving DecidableEq

/-- The `file_handler` argument of `_get_color` (services.py line 46): either
an in-memory `io.BytesIO` buffer (URL variant, line 92) or a file path string
(path variant, lines 38-43 and 112). -/
inductive ImageSource
  | bytes (content : List Nat)
  | file (path : String)
deriving DecidableEq

/-- The response object a successful `session.get(url)` resolves to within
the timeout (services.py line 84); its body has not been read yet. -/
structure Response where
  id : Nat
deriving DecidableEq

/-- Outcome of `session.get(url)` alone, under `asyncio.timeout(10)`
(services.py lines 83-84): the response on success, an
`aiohttp.ClientError`, or a `TimeoutError`.  Only these failures are caught
by the `except` of lines 86-88; reading the body is a separate later step. -/
inductive FetchOutcome
  | ok (response : Response)
  | clientError
  | timeout
deriving DecidableEq

/-- Outcome of `content = await response.content.read()` (services.py line
90).  This await sits outside the `try/except (TimeoutError,
aiohttp.ClientError)` of lines 80-88 and outside `asyncio.timeout(10)`: an
`aiohttp.ClientError` raised here is not caught anywhere in the component
and is subject to no timeout. -/
inductive BodyRead
  | ok (content : List Nat)
  | clientError
deriving DecidableEq

/-- The only exception `_get_color` can raise: `PIL.UnidentifiedImageError`,
from the ColorThief constructor when the bytes do not decode as a
recognizable image; the handler catches exactly this one (services.py line
139). -/
inductive CTError
  | unidentifiedImage
deriving DecidableEq

/-- An exception escaping an acquisition function: the decode failure above,
or an `aiohttp.ClientError` raised by the body read of services.py line 90
(URL variant only).  The handler's `except UnidentifiedImageError` catches
only the former; the latter propagates to the caller. -/
inductive AcqError
  | unidentifiedImage
  | aioClientError
deriving DecidableEq

/-- A Python exception the handler lets propagate to the caller.
`nameError` is a `NameError` for an unbound name: `async_handle_service`
(services.py lines 116-163) can hit two, `colors` if neither image key is
present (line 148) and `hass` in the dispatch loop (line 161), where the
function's parameter is `service_call` and no binding named `hass` exists in
scope (other call sites use `service_call.hass`).  `aioClientError` is an
`aiohttp.ClientError` escaping the body read of line 90, which no
`except` clause in the component covers. -/
inductive PyError
  | nameError (name : String)
  | aioClientError
deriving DecidableEq

/-- How one invocation of the service handler ends: normal completion, or a
Python exception propagating to the caller. -/
inductive HandlerOutcome
  | completed
  | raised (e : PyError)
deriving DecidableEq

/-- Observable side effects, in program order:
`fetch` is the HTTP GET issued on line 84; `fileOpen` is the local file being
opened via the ColorThief constructor in `_extract_color_from_path`;
`logError` is a `_LOGGER.error` call; `dispatch` is a completed
`hass.services.async_call(light, turn_on, ...)` downstream call. -/
inductive Event
  | fetch (url : String)
  | fileOpen (path : String)
  | logError (msg : String)
  | dispatch (entity_id : String) (color : RGB)
deriving DecidableEq

def Event.isFetch : Event → Bool
  | .fetch _ => true
  | _ => false

def Event.isFileOpen : Event → Bool
  | .fileOpen _ => true
  | _ => false

def Event.isLogError : Event → Bool
  | .logError _ => true
  | _ => false

def Event.isDispatch : Event → Bool
  | .dispatch _ _ => true
  | _ => false

/-- Number of downstream `light.turn_on` calls in a trace. -/
def dispatchCount (evs : List Event) : Nat :=
  (evs.filter Event.isDispatch).length

/-- Number of network GETs in a trace. -/
def fetchCount (evs : List Event) : Nat :=
  (evs.filter Event.isFetch).length

/-- Number of local file opens in a trace. -/
def fileOpenCount (evs : List Event) : Nat :=
  (evs.filter Event.isFileOpen).length

/-- Number of logged errors in a trace. -/
def errorLogCount (evs : List Event) : Nat :=
  (evs.filter Event.isLogError).length

/-- The external collaborators, as black boxes:
`is_allowed_external_url` and `is_allowed_path` are the host configuration
predicates (`hass.config`); `fetch` is the HTTP GET with its timeout in
seconds; `decode` is PIL opening the image inside the ColorThief constructor
(`none` models `UnidentifiedImageError`); `get_color` and `get_palette` are
ColorThief's quantization calls on a successfully decoded image.  `fetch`
covers only `session.get` under the timeout; `read_body` is the separate,
unguarded `response.content.read()` of line 90. -/
structure Env where
  is_allowed_external_url : String → Bool
  is_allowed_path : String → Bool
  fetch : String → Nat → FetchOutcome
  read_body : Response → BodyRead
  decode : ImageSource → Option Image
  get_color : Image → RGB
  get_palette : Image → Nat → List RGB

/-- The `entity_id` field of the service data: a single string or a list of
entity id strings (spec section 6: "string or sequence of strings"; the code
handles both shapes at services.py lines 149-152). -/
inductive EntityField
  | str (s : String)
  | list (l : List String)
deriving DecidableEq

/-- Python `len` on the entity_id value (services.py line 119): character
count for a string, element count for a list. -/
def EntityField.pyLen : EntityField → Nat
  | .str s => s.length
  | .list l => l.length

/-- The `lights` value computed at services.py lines 149-152: a list is used
as is, a bare string is wrapped into a one-element list. -/
def EntityField.targets : EntityField → List String
  | .str s => [s]
  | .list l => l

/-- The validated service call data as seen by `async_handle_service`:
the entity_id value, the optional `color_extract_url` / `color_extract_path`
keys, and the remaining pass-through light.turn_on parameters. -/
structure ServiceData where
  entity_id : EntityField
  url : Option String
  path : Option String
  passThrough : List (String × String)
deriving DecidableEq

/-- `number_of_lights = len(service_data[ATTR_ENTITY_ID])`
(services.py line 119). -/
def number_of_lights (sd : ServiceData) : Nat :=
  sd.entity_id.pyLen

/-- `_get_file` (services.py lines 38-43): the identity on the path. -/
def _get_file (file_path : String) : String :=
  file_path

/-- `_get_color` (services.py lines 46-60): construct a ColorThief on the
file handler (raising `UnidentifiedImageError` if the bytes do not decode),
then take `[get_color(quality=1)]` when `light_count == 1` and
`get_palette(quality=1, color_count=light_count)` otherwise. -/
def _get_color (env : Env) (file_handler : ImageSource) (light_count : Nat) :
    Except CTError (List RGB) :=
  match env.decode file_handler with
  | none => .error .unidentifiedImage
  | some img =>
    if light_count = 1 then .ok [env.get_color img]
    else .ok (env.get_palette img light_count)

/-- The constant `10` in `asyncio.timeout(10)` (services.py line 83). -/
def timeoutSeconds : Nat := 10

/-- Error log for a URL rejected by the allowlist (services.py lines 68-74). -/
def urlNotAllowedMsg (url : String) : String :=
  "External URL " ++ url ++ " is not allowed, please add to allowlist_external_urls"

/-- Error log for a path rejected by the allowlist (services.py lines 104-107). -/
def pathNotAllowedMsg (file_path : String) : String :=
  "File path " ++ file_path ++ " is not allowed, please add to allowlist_external_dirs"

/-- Error log for a network or timeout failure (services.py line 87). -/
def httpErrorMsg : String :=
  "Failed to get ColorThief image due to HTTPError"

/-- Error log for an image that fails to decode (services.py lines 140-145);
it names the image type ("URL" or "file path") and the reference. -/
def badImageMsg (image_type image_reference : String) : String :=
  "Bad image from " ++ image_type ++ " " ++ image_reference ++
    " provided, are you sure it is an image?"

/-- `_async_extract_color_from_url` (services.py lines 63-96).  If the URL is
not allowed: log an error and return `None` with no fetch.  Otherwise issue
the GET under the 10-second timeout; a `TimeoutError` / `aiohttp.ClientError`
from `session.get` itself is caught, logged and turned into `None`.  Then —
already outside the `try` and outside the timeout — the body is read (line
90): an `aiohttp.ClientError` there propagates out uncaught and unlogged.
On success the body is buffered into a `BytesIO` and handed to `_get_color`
with `number_of_lights`; a decode failure inside `_get_color` propagates out
uncaught. -/
def _async_extract_color_from_url (env : Env) (url : String)
    (number_of_lights : Nat) :
    Except AcqError (Option (List RGB)) × List Event :=
  if env.is_allowed_external_url url then
    match env.fetch url timeoutSeconds with
    | .ok response =>
      match env.read_body response with
      | .clientError => (.error .aioClientError, [.fetch url])
      | .ok content =>
        match _get_color env (.bytes content) number_of_lights with
        | .error .unidentifiedImage => (.error .unidentifiedImage, [.fetch url])
        | .ok colors => (.ok (some colors), [.fetch url])
    | .clientError => (.ok none, [.fetch url, .logError httpErrorMsg])
    | .timeout => (.ok none, [.fetch url, .logError httpErrorMsg])
  else
    (.ok none, [.logError (urlNotAllowedMsg url)])

/-- `_extract_color_from_path` (services.py lines 99-113).  If the path is
not allowed: log an error and return `None` with no file open.  Otherwise
open the file (via `_get_file` and the ColorThief constructor) and hand it to
`_get_color`; a decode failure propagates out uncaught. -/
def _extract_color_from_path (env : Env) (file_path : String)
    (number_of_lights : Nat) :
    Except AcqError (Option (List RGB)) × List Event :=
  if env.is_allowed_path file_path then
    match _get_color env (.file (_get_file file_path)) number_of_lights with
    | .error .unidentifiedImage => (.error .unidentifiedImage, [.fileOpen file_path])
    | .ok colors => (.ok (some colors), [.fileOpen file_path])
  else
    (.ok none, [.logError (pathNotAllowedMsg file_path)])

/-- The branch selection inside the `try` block of `async_handle_service`
(services.py lines 121-137): the URL key is checked first, then the path key;
the chosen variant runs with `number_of_lights`.  The result carries the
`image_type` and `image_reference` values used by the except-handler's log.
`none` models the case where neither key is present, in which `colors` is
never bound. -/
def acquire (env : Env) (sd : ServiceData) :
    Option (String × String × (Except AcqError (Option (List RGB)) × List Event)) :=
  match sd.url with
  | some u => some ("URL", u, _async_extract_color_from_url env u (number_of_lights sd))
  | none =>
    match sd.path with
    | some p => some ("file path", p, _extract_color_from_path env p (number_of_lights sd))
    | none => none

/-- The `for entity_id, color in zip(lights, colors)` loop (services.py lines
154-163).  The first iteration builds the merged `data` dict and then
evaluates `hass.services.async_call(...)`: `hass` is an unbound name inside
`async_handle_service` (the parameter is `service_call`; the other call sites
use `service_call.hass`), so the iteration raises
`NameError: name 'hass' is not defined` before any downstream call is issued.
An empty pair list never enters the loop body and completes normally. -/
def dispatch_loop (pairs : List (String × RGB)) : HandlerOutcome × List Event :=
  match pairs with
  | [] => (.completed, [])
  | _ :: _ => (.raised (.nameError "hass"), [])

/-- The part of `async_handle_service` after the `try` block (services.py
lines 139-163): an `UnidentifiedImageError` from acquisition is caught,
logged once and swallowed (`return`); an `aiohttp.ClientError` from the body
read matches no `except` clause and propagates to the caller unlogged;
otherwise, if `colors` is truthy (not `None` and non-empty), the entity
value is normalized to the `lights` list and the dispatch loop runs over
`zip(lights, colors)`. -/
def handle_after (sd : ServiceData) (image_type image_reference : String)
    (res : Except AcqError (Option (List RGB)) × List Event) :
    HandlerOutcome × List Event :=
  match res with
  | (.error .unidentifiedImage, evs) =>
    (.completed, evs ++ [.logError (badImageMsg image_type image_reference)])
  | (.error .aioClientError, evs) => (.raised .aioClientError, evs)
  | (.ok none, evs) => (.completed, evs)
  | (.ok (some colors), evs) =>
    if colors.isEmpty then (.completed, evs)
    else
      let lights := sd.entity_id.targets
      let r := dispatch_loop (List.zip lights colors)
      (r.1, evs ++ r.2)

/-- `async_handle_service` (services.py lines 116-163), as a whole.  If
neither image key is present (unreachable past the schema), `colors` is
unbound and line 148 raises a `NameError`. -/
def async_handle_service (env : Env) (sd : ServiceData) :
    HandlerOutcome × List Event :=
  match acquire env sd with
  | none => (.raised (.nameError "colors"), [])
  | some (ty, ref, res) => handle_after sd ty ref res

/-- The raw, not yet validated service-call parameters, with the validity of
the externally checked pieces recorded as oracles: `url_value_ok` is whether
`cv.url` accepts the URL value, `path_is_file` whether `cv.isfile` accepts
the path value, and `entity_schema_ok` whether the remaining fields conform
to `cv.make_entity_service_schema({**LIGHT_TURN_ON_SCHEMA, ...})`. -/
structure RawRequest where
  entity_id : EntityField
  url : Option String
  path : Option String
  passThrough : List (String × String)
  url_value_ok : Bool
  path_is_file : Bool
  entity_schema_ok : Bool
deriving DecidableEq

/-- `cv.has_at_least_one_key(ATTR_URL, ATTR_PATH)` (services.py line 27):
at least one of the two keys is present. -/
def has_at_least_one_key (r : RawRequest) : Bool :=
  r.url.isSome || r.path.isSome

/-- The two `vol.Exclusive(..., "color_palette_extractor")` markers
(services.py lines 31-32): the keys may not both be present. -/
def exclusive_ok (r : RawRequest) : Bool :=
  !(r.url.isSome && r.path.isSome)

/-- The per-key value validators `cv.isfile` / `cv.url`
(services.py lines 31-32), applied only to keys that are present. -/
def value_checks_ok (r : RawRequest) : Bool :=
  (match r.url with
   | some _ => r.url_value_ok
   | none => true) &&
  (match r.path with
   | some _ => r.path_is_file
   | none => true)

/-- `SERVICE_SCHEMA` (services.py lines 26-35): `vol.All` of the
at-least-one-key check and the extended entity service schema (which enforces
the exclusivity markers, the per-value validators and the light.turn_on
fields). -/
def SERVICE_SCHEMA (r : RawRequest) : Bool :=
  has_at_least_one_key r &&
    (exclusive_ok r && value_checks_ok r && r.entity_schema_ok)

/-- The data a validated request hands to the handler. -/
def RawRequest.toServiceData (r : RawRequest) : ServiceData :=
  ⟨r.entity_id, r.url, r.path, r.passThrough⟩

/-- Outcome of one raw service call: rejected by the schema before the
handler runs, or the handler ran with the given outcome. -/
inductive EntryOutcome
  | rejected
  | ran (o : HandlerOutcome)
deriving DecidableEq

/-- The registered service as the platform invokes it
(services.py lines 166-175): the schema validates the raw data first and a
schema violation rejects the call before the handler — and hence before any
I/O or downstream call — runs. -/
def handle_entry (env : Env) (r : RawRequest) : EntryOutcome × List Event :=
  if SERVICE_SCHEMA r then
    let h := async_handle_service env r.toServiceData
    (.ran h.1, h.2)
  else
    (.rejected, [])

/-! ## Concrete test environments and requests -/

/-- Everything permissive: allowlists accept, the GET succeeds, the bytes
decode, the dominant color is (1,2,3) and a palette of n copies of (9,9,9)
is available. -/
def envC1 : Env where
  is_allowed_external_url := fun _ => true
  is_allowed_path := fun _ => true
  fetch := fun _ _ => .ok ⟨0⟩
  read_body := fun _ => .ok [7]
  decode := fun _ => some ⟨0⟩
  get_color := fun _ => ⟨1, 2, 3⟩
  get_palette := fun _ n => List.replicate n ⟨9, 9, 9⟩

/-- One target entity, given as a one-element list, URL variant. -/
def sdC1 : ServiceData :=
  ⟨.list ["light.a"], some "http://example.com/a.jpg", none, []⟩

/-- Permissive environment whose palette call returns the two colors
(10,20,30) and (40,50,60) whatever count is requested. -/
def envC3 : Env where
  is_allowed_external_url := fun _ => true
  is_allowed_path := fun _ => true
  fetch := fun _ _ => .ok ⟨0⟩
  read_body := fun _ => .ok [3]
  decode := fun _ => some ⟨0⟩
  get_color := fun _ => ⟨1, 2, 3⟩
  get_palette := fun _ _ => [⟨10, 20, 30⟩, ⟨40, 50, 60⟩]

/-- Three target entities, URL variant. -/
def sdC3 : ServiceData :=
  ⟨.list ["light.a", "light.b", "light.c"],
   some "http://example.com/p.jpg", none, []⟩

/-- One target entity given as the bare string "light.a", path variant. -/
def sdC2 : ServiceData :=
  ⟨.str "light.a", none, some "/config/www/a.jpg", []⟩

/-- Environment whose allowlists deny everything. -/
def envDeny : Env where
  is_allowed_external_url := fun _ => false
  is_allowed_path := fun _ => false
  fetch := fun _ _ => .timeout
  read_body := fun _ => .clientError
  decode := fun _ => none
  get_color := fun _ => ⟨1, 2, 3⟩
  get_palette := fun _ _ => []

/-- One target entity, path variant. -/
def sdC5 : ServiceData :=
  ⟨.list ["light.a"], none, some "/config/www/a.jpg", []⟩

/-- Environment whose GET always exceeds the timeout. -/
def envTimeout : Env where
  is_allowed_external_url := fun _ => true
  is_allowed_path := fun _ => true
  fetch := fun _ _ => .timeout
  read_body := fun _ => .ok []
  decode := fun _ => some ⟨0⟩
  get_color := fun _ => ⟨1, 2, 3⟩
  get_palette := fun _ _ => []

/-- Environment whose GET succeeds within the timeout but whose body read
dies with an `aiohttp.ClientError`. -/
def envBodyFail : Env where
  is_allowed_external_url := fun _ => true
  is_allowed_path := fun _ => true
  fetch := fun _ _ => .ok ⟨0⟩
  read_body := fun _ => .clientError
  decode := fun _ => some ⟨0⟩
  get_color := fun _ => ⟨1, 2, 3⟩
  get_palette := fun _ _ => []

/-- Environment delivering bytes that never decode as an image. -/
def envBadImage : Env where
  is_allowed_external_url := fun _ => true
  is_allowed_path := fun _ => true
  fetch := fun _ _ => .ok ⟨0⟩
  read_body := fun _ => .ok [9]
  decode := fun _ => none
  get_color := fun _ => ⟨1, 2, 3⟩
  get_palette := fun _ _ => []

/-- Environment whose palette call returns no colors at all. -/
def envEmptyPalette : Env where
  is_allowed_external_url := fun _ => true
  is_allowed_path := fun _ => true
  fetch := fun _ _ => .ok ⟨0⟩
  read_body := fun _ => .ok [1]
  decode := fun _ => some ⟨0⟩
  get_color := fun _ => ⟨1, 2, 3⟩
  get_palette := fun _ _ => []

/-- Two target entities, URL variant. -/
def sdC9 : ServiceData :=
  ⟨.list ["light.a", "light.b"], some "http://example.com/a.jpg", none, []⟩

/-- A raw request carrying both the URL and the path key, everything else
valid. -/
def rBoth : RawRequest :=
  ⟨.list ["light.a"], some "http://example.com/a.jpg",
   some "/config/www/a.jpg", [], true, true, true⟩

/-! ## General lemmas about the traces -/

theorem dispatchCount_append (a b : List Event) :
    dispatchCount (a ++ b) = dispatchCount a + dispatchCount b := by
  simp [dispatchCount, List.filter_append]

theorem errorLogCount_append (a b : List Event) :
    errorLogCount (a ++ b) = errorLogCount a + errorLogCount b := by
  simp [errorLogCount, List.filter_append]

/-- The dispatch loop never emits a dispatch event: its body raises
`NameError` on `hass` before the downstream call. -/
theorem dispatch_loop_trace (pairs : List (String × RGB)) :
    (dispatch_loop pairs).2 = [] := by
  cases pairs <;> rfl

/-- The URL acquisition path emits no dispatch event. -/
theorem url_no_dispatch (env : Env) (u : String) (n : Nat) :
    dispatchCount (_async_extract_color_from_url env u n).2 = 0 := by
  unfold _async_extract_color_from_url
  split
  · split
    · split
      · rfl
      · split <;> rfl
    · rfl
    · rfl
  · rfl

/-- The path acquisition path emits no dispatch event. -/
theorem path_no_dispatch (env : Env) (p : String) (n : Nat) :
    dispatchCount (_extract_color_from_path env p n).2 = 0 := by
  unfold _extract_color_from_path
  split
  · split <;> rfl
  · rfl

/-- When URL acquisition propagates a decode error, no error has been logged
yet (the only log sites on that path are the allowlist and HTTP failures,
which do not reach `_get_color`). -/
theorem url_error_no_log (env : Env) (u : String) (n : Nat) (e : AcqError)
    (h : (_async_extract_color_from_url env u n).1 = .error e) :
    errorLogCount (_async_extract_color_from_url env u n).2 = 0 := by
  revert h
  unfold _async_extract_color_from_url
  split
  · split
    · split
      · intro _; rfl
      · split
        · intro _; rfl
        · intro h; exact absurd h (by simp)
    · intro h; exact absurd h (by simp)
    · intro h; exact absurd h (by simp)
  · intro h; exact absurd h (by simp)

/-- When path acquisition propagates a decode error, no error has been logged
yet. -/
theorem path_error_no_log (env : Env) (p : String) (n : Nat) (e : AcqError)
    (h : (_extract_color_from_path env p n).1 = .error e) :
    errorLogCount (_extract_color_from_path env p n).2 = 0 := by
  revert h
  unfold _extract_color_from_path
  split
  · split
    · intro _; rfl
    · intro h; exact absurd h (by simp)
  · intro h; exact absurd h (by simp)

/-- The post-acquisition part of the handler adds no dispatch event to a
dispatch-free acquisition trace. -/
theorem handle_after_no_dispatch (sd : ServiceData) (ty ref : String)
    (res : Except AcqError (Option (List RGB)) × List Event)
    (h : dispatchCount res.2 = 0) :
    dispatchCount (handle_after sd ty ref res).2 = 0 := by
  unfold handle_after
  split
  · next evs =>
    have h0 : dispatchCount evs = 0 := h
    rw [dispatchCount_append, h0]
    rfl
  · next evs =>
    exact h
  · next evs =>
    exact h
  · next colors evs =>
    have h0 : dispatchCount evs = 0 := h
    split
    · exact h0
    · rw [dispatchCount_append, h0, dispatch_loop_trace]
      rfl

/-- Whatever happens, one invocation of the handler issues no downstream
`light.turn_on` call: the loop that should issue them dies on the unbound
name `hass` before the first call. -/
theorem handler_no_dispatch (env : Env) (sd : ServiceData) :
    dispatchCount (async_handle_service env sd).2 = 0 := by
  unfold async_handle_service acquire
  cases hu : sd.url with
  | some u =>
    exact handle_after_no_dispatch sd "URL" u _ (url_no_dispatch env u (number_of_lights sd))
  | none =>
    cases hp : sd.path with
    | some p =>
      exact handle_after_no_dispatch sd "file path" p _
        (path_no_dispatch env p (number_of_lights sd))
    | none => rfl

/-! ## Claim theorems -/

/-- C1: the claim says that on a successful acquisition and extraction with a
non-empty color list the dispatcher merges the pass-through parameters with
each (entity id, color) pair and invokes `light.turn_on` once per pair,
sequentially.  The code cannot do this: `hass` is unbound inside
`async_handle_service` (services.py line 161), so on the concrete fully
successful request `sdC1` the handler raises `NameError` and issues zero
dispatch calls. -/
theorem C1_dispatch_raises_name_error :
    async_handle_service envC1 sdC1 =
      (.raised (.nameError "hass"), [.fetch "http://example.com/a.jpg"]) ∧
    dispatchCount (async_handle_service envC1 sdC1).2 = 0 :=
  ⟨rfl, rfl⟩

/-- C2 (counterexample): a request whose single target entity is given as the
bare string "light.a" is a request with exactly one target entity (the code
itself wraps it into the one-element list `["light.a"]` for dispatch), yet
`number_of_lights = len(entity_id)` is the character count 7, so the
extraction step is asked for 7 colors — the palette branch — not 1. -/
theorem C2_counterexample :
    EntityField.targets (.str "light.a") = ["light.a"] ∧
    number_of_lights sdC2 = 7 ∧
    ¬ number_of_lights sdC2 = 1 ∧
    _get_color envC3 (.file "/config/www/a.jpg") (number_of_lights sdC2) =
      .ok [⟨10, 20, 30⟩, ⟨40, 50, 60⟩] :=
  ⟨rfl, rfl, by decide, rfl⟩

/-- C2 (amended): for every request whose entity_id is a list containing
exactly one entity id, the color count passed to the extraction step equals
1, and the extractor returns the single-element sequence containing the
single dominant color of the decoded image. -/
theorem C2_single_entity_list (env : Env) (sd : ServiceData) (e : String)
    (src : ImageSource) (img : Image)
    (h1 : sd.entity_id = .list [e]) (h2 : env.decode src = some img) :
    number_of_lights sd = 1 ∧
    _get_color env src (number_of_lights sd) = .ok [env.get_color img] := by
  have hn : number_of_lights sd = 1 := by
    unfold number_of_lights
    rw [h1]
    rfl
  refine ⟨hn, ?_⟩
  unfold _get_color
  rw [h2, hn]
  simp

/-- C2 witness: the amended statement at the concrete request `sdC1`. -/
theorem C2_single_entity_list_witness :
    sdC1.entity_id = .list ["light.a"] ∧
    envC1.decode (.bytes [7]) = some ⟨0⟩ ∧
    (number_of_lights sdC1 = 1 ∧
     _get_color envC1 (.bytes [7]) (number_of_lights sdC1) = .ok [⟨1, 2, 3⟩]) :=
  ⟨rfl, rfl, C2_single_entity_list envC1 sdC1 "light.a" (.bytes [7]) ⟨0⟩ rfl rfl⟩

/-- C3: for the three entities of `sdC3` the extractor is indeed asked for 3
colors and returns the two colors (10,20,30) and (40,50,60); the positional
pairing the loop ranges over is light.a with (10,20,30) and light.b with
(40,50,60), dropping light.c.  But instead of issuing those two calls, the
handler raises `NameError` on the unbound `hass` (services.py line 161) and
issues zero dispatch calls. -/
theorem C3_pairing_raises_name_error :
    number_of_lights sdC3 = 3 ∧
    acquire envC3 sdC3 =
      some ("URL", "http://example.com/p.jpg",
        (.ok (some [⟨10, 20, 30⟩, ⟨40, 50, 60⟩]),
         [.fetch "http://example.com/p.jpg"])) ∧
    List.zip sdC3.entity_id.targets [⟨10, 20, 30⟩, ⟨40, 50, 60⟩] =
      [("light.a", (⟨10, 20, 30⟩ : RGB)), ("light.b", ⟨40, 50, 60⟩)] ∧
    async_handle_service envC3 sdC3 =
      (.raised (.nameError "hass"), [.fetch "http://example.com/p.jpg"]) ∧
    dispatchCount (async_handle_service envC3 sdC3).2 = 0 :=
  ⟨rfl, rfl, rfl, rfl, rfl⟩

/-! ## More helper lemmas -/

theorem acquire_url (env : Env) (sd : ServiceData) (u : String)
    (h : sd.url = some u) :
    acquire env sd =
      some ("URL", u, _async_extract_color_from_url env u (number_of_lights sd)) := by
  unfold acquire
  rw [h]

theorem acquire_path (env : Env) (sd : ServiceData) (p : String)
    (h0 : sd.url = none) (h : sd.path = some p) :
    acquire env sd =
      some ("file path", p, _extract_color_from_path env p (number_of_lights sd)) := by
  unfold acquire
  rw [h0, h]

theorem handler_eq (env : Env) (sd : ServiceData) (ty ref : String)
    (res : Except AcqError (Option (List RGB)) × List Event)
    (h : acquire env sd = some (ty, ref, res)) :
    async_handle_service env sd = handle_after sd ty ref res := by
  unfold async_handle_service
  rw [h]

/-! ## Claims C4 to C10 -/

/-- C4: a URL-variant request whose URL fails the external-URL allowlist
never issues a network GET: the acquisition step logs one error and returns
`None` rather than raising, and the handler completes with zero downstream
dispatch calls. -/
theorem C4_disallowed_url_no_fetch (env : Env) (sd : ServiceData) (u : String)
    (h1 : sd.url = some u) (h2 : env.is_allowed_external_url u = false) :
    _async_extract_color_from_url env u (number_of_lights sd) =
      (.ok none, [.logError (urlNotAllowedMsg u)]) ∧
    async_handle_service env sd =
      (.completed, [.logError (urlNotAllowedMsg u)]) ∧
    fetchCount (async_handle_service env sd).2 = 0 ∧
    dispatchCount (async_handle_service env sd).2 = 0 := by
  have hex : _async_extract_color_from_url env u (number_of_lights sd) =
      (.ok none, [.logError (urlNotAllowedMsg u)]) := by
    unfold _async_extract_color_from_url
    rw [h2]
    rfl
  have hh : async_handle_service env sd =
      (.completed, [.logError (urlNotAllowedMsg u)]) := by
    rw [handler_eq env sd "URL" u _ (acquire_url env sd u h1), hex]
    rfl
  refine ⟨hex, hh, ?_, ?_⟩
  · rw [hh]
    rfl
  · rw [hh]
    rfl

/-- C4 witness: the theorem at a concrete denying environment. -/
theorem C4_disallowed_url_no_fetch_witness :
    sdC1.url = some "http://example.com/a.jpg" ∧
    envDeny.is_allowed_external_url "http://example.com/a.jpg" = false ∧
    (async_handle_service envDeny sdC1 =
      (.completed, [.logError (urlNotAllowedMsg "http://example.com/a.jpg")]) ∧
     fetchCount (async_handle_service envDeny sdC1).2 = 0 ∧
     dispatchCount (async_handle_service envDeny sdC1).2 = 0) :=
  ⟨rfl, rfl,
   (C4_disallowed_url_no_fetch envDeny sdC1 "http://example.com/a.jpg" rfl rfl).2⟩

/-- C5: a path-variant request whose path fails the allowed-directories check
never opens a file: the acquisition step logs one error and returns `None`,
and the handler completes with zero downstream dispatch calls. -/
theorem C5_disallowed_path_no_open (env : Env) (sd : ServiceData) (p : String)
    (h0 : sd.url = none) (h1 : sd.path = some p)
    (h2 : env.is_allowed_path p = false) :
    _extract_color_from_path env p (number_of_lights sd) =
      (.ok none, [.logError (pathNotAllowedMsg p)]) ∧
    async_handle_service env sd =
      (.completed, [.logError (pathNotAllowedMsg p)]) ∧
    fileOpenCount (async_handle_service env sd).2 = 0 ∧
    dispatchCount (async_handle_service env sd).2 = 0 := by
  have hex : _extract_color_from_path env p (number_of_lights sd) =
      (.ok none, [.logError (pathNotAllowedMsg p)]) := by
    unfold _extract_color_from_path
    rw [h2]
    rfl
  have hh : async_handle_service env sd =
      (.completed, [.logError (pathNotAllowedMsg p)]) := by
    rw [handler_eq env sd "file path" p _ (acquire_path env sd p h0 h1), hex]
    rfl
  refine ⟨hex, hh, ?_, ?_⟩
  · rw [hh]
    rfl
  · rw [hh]
    rfl

/-- C5 witness: the theorem at a concrete denying environment. -/
theorem C5_disallowed_path_no_open_witness :
    sdC5.url = none ∧ sdC5.path = some "/config/www/a.jpg" ∧
    envDeny.is_allowed_path "/config/www/a.jpg" = false ∧
    (async_handle_service envDeny sdC5 =
      (.completed, [.logError (pathNotAllowedMsg "/config/www/a.jpg")]) ∧
     fileOpenCount (async_handle_service envDeny sdC5).2 = 0 ∧
     dispatchCount (async_handle_service envDeny sdC5).2 = 0) :=
  ⟨rfl, rfl, rfl,
   (C5_disallowed_path_no_open envDeny sdC5 "/config/www/a.jpg" rfl rfl rfl).2⟩

/-- C6 (counterexample): an `aiohttp.ClientError` raised while reading the
response body (services.py line 90) is a network failure while acquiring the
image, yet it is neither logged nor treated as "no result": line 90 sits
outside the `try/except` of lines 80-88 and outside the 10-second timeout,
and the handler's only `except` clause covers `UnidentifiedImageError`, so
the error propagates to the caller.  At the concrete request `sdC1` under
`envBodyFail` the handler raises with nothing logged (zero dispatch calls
are still made). -/
theorem C6_counterexample :
    async_handle_service envBodyFail sdC1 =
      (.raised .aioClientError, [.fetch "http://example.com/a.jpg"]) ∧
    errorLogCount (async_handle_service envBodyFail sdC1).2 = 0 ∧
    dispatchCount (async_handle_service envBodyFail sdC1).2 = 0 :=
  ⟨rfl, rfl, rfl⟩

/-- C6 (amended): on a URL-variant request, a `TimeoutError` from the
10-second `asyncio.timeout` or an `aiohttp.ClientError` raised by
`session.get` itself is logged and turned into `None` instead of
propagating, and the handler completes with zero downstream dispatch calls;
an `aiohttp.ClientError` raised by the later body read (services.py line 90)
is not caught: it propagates to the caller, unlogged, still with zero
dispatch calls made. -/
theorem C6_get_failure_caught_body_read_not (env : Env) (sd : ServiceData)
    (u : String) (h1 : sd.url = some u)
    (h2 : env.is_allowed_external_url u = true) :
    timeoutSeconds = 10 ∧
    ((env.fetch u timeoutSeconds = .timeout ∨
      env.fetch u timeoutSeconds = .clientError) →
      _async_extract_color_from_url env u (number_of_lights sd) =
        (.ok none, [.fetch u, .logError httpErrorMsg]) ∧
      async_handle_service env sd =
        (.completed, [.fetch u, .logError httpErrorMsg]) ∧
      dispatchCount (async_handle_service env sd).2 = 0) ∧
    (∀ resp, env.fetch u timeoutSeconds = .ok resp →
      env.read_body resp = .clientError →
      _async_extract_color_from_url env u (number_of_lights sd) =
        (.error .aioClientError, [.fetch u]) ∧
      async_handle_service env sd = (.raised .aioClientError, [.fetch u]) ∧
      errorLogCount (async_handle_service env sd).2 = 0 ∧
      dispatchCount (async_handle_service env sd).2 = 0) := by
  refine ⟨rfl, ?_, ?_⟩
  · intro h3
    have hex : _async_extract_color_from_url env u (number_of_lights sd) =
        (.ok none, [.fetch u, .logError httpErrorMsg]) := by
      unfold _async_extract_color_from_url
      rw [h2]
      rcases h3 with h3 | h3 <;> rw [h3] <;> rfl
    have hh : async_handle_service env sd =
        (.completed, [.fetch u, .logError httpErrorMsg]) := by
      rw [handler_eq env sd "URL" u _ (acquire_url env sd u h1), hex]
      rfl
    refine ⟨hex, hh, ?_⟩
    rw [hh]
    rfl
  · intro resp hresp hbody
    have hex : _async_extract_color_from_url env u (number_of_lights sd) =
        (.error .aioClientError, [.fetch u]) := by
      unfold _async_extract_color_from_url
      simp [h2, hresp, hbody]
    have hh : async_handle_service env sd =
        (.raised .aioClientError, [.fetch u]) := by
      rw [handler_eq env sd "URL" u _ (acquire_url env sd u h1), hex]
      rfl
    refine ⟨hex, hh, ?_, ?_⟩
    · rw [hh]
      rfl
    · rw [hh]
      rfl

/-- C6 witness: the amended statement at a concrete timing-out environment
and at a concrete body-read-failing environment. -/
theorem C6_get_failure_caught_body_read_not_witness :
    (async_handle_service envTimeout sdC1 =
      (.completed, [.fetch "http://example.com/a.jpg", .logError httpErrorMsg]) ∧
     dispatchCount (async_handle_service envTimeout sdC1).2 = 0) ∧
    (async_handle_service envBodyFail sdC1 =
      (.raised .aioClientError, [.fetch "http://example.com/a.jpg"]) ∧
     errorLogCount (async_handle_service envBodyFail sdC1).2 = 0) := by
  have ht := C6_get_failure_caught_body_read_not envTimeout sdC1
    "http://example.com/a.jpg" rfl rfl
  have hb := C6_get_failure_caught_body_read_not envBodyFail sdC1
    "http://example.com/a.jpg" rfl rfl
  have ht2 := ht.2.1 (Or.inl rfl)
  have hb2 := hb.2.2 ⟨0⟩ rfl rfl
  exact ⟨⟨ht2.2.1, ht2.2.2⟩, ⟨hb2.2.1, hb2.2.2.1⟩⟩

/-- C7: when acquisition propagates the `UnidentifiedImageError` decode
failure, the handler catches it, logs exactly one error and completes
normally with zero downstream dispatch calls. -/
theorem C7_decode_failure_one_log (env : Env) (sd : ServiceData)
    (ty ref : String) (evs : List Event)
    (hacq : acquire env sd = some (ty, ref, (.error .unidentifiedImage, evs))) :
    async_handle_service env sd =
      (.completed, evs ++ [.logError (badImageMsg ty ref)]) ∧
    dispatchCount (async_handle_service env sd).2 = 0 ∧
    errorLogCount (async_handle_service env sd).2 = 1 := by
  have hh : async_handle_service env sd =
      (.completed, evs ++ [.logError (badImageMsg ty ref)]) := by
    rw [handler_eq env sd ty ref _ hacq]
    rfl
  have hzero : errorLogCount evs = 0 := by
    unfold acquire at hacq
    cases hu : sd.url with
    | some u =>
      rw [hu] at hacq
      have h4 : ("URL", u, _async_extract_color_from_url env u (number_of_lights sd)) =
          (ty, ref, ((.error .unidentifiedImage, evs) :
            Except AcqError (Option (List RGB)) × List Event)) := by
        injection hacq
      have h5 : _async_extract_color_from_url env u (number_of_lights sd) =
          (.error .unidentifiedImage, evs) := congrArg (fun x => x.2.2) h4
      have h6 : (_async_extract_color_from_url env u (number_of_lights sd)).1 =
          .error .unidentifiedImage := by rw [h5]
      have h7 := url_error_no_log env u (number_of_lights sd) .unidentifiedImage h6
      rw [h5] at h7
      exact h7
    | none =>
      rw [hu] at hacq
      cases hp : sd.path with
      | some p =>
        rw [hp] at hacq
        have h4 : ("file path", p, _extract_color_from_path env p (number_of_lights sd)) =
            (ty, ref, ((.error .unidentifiedImage, evs) :
              Except AcqError (Option (List RGB)) × List Event)) := by
          injection hacq
        have h5 : _extract_color_from_path env p (number_of_lights sd) =
            (.error .unidentifiedImage, evs) := congrArg (fun x => x.2.2) h4
        have h6 : (_extract_color_from_path env p (number_of_lights sd)).1 =
            .error .unidentifiedImage := by rw [h5]
        have h7 := path_error_no_log env p (number_of_lights sd) .unidentifiedImage h6
        rw [h5] at h7
        exact h7
      | none =>
        rw [hp] at hacq
        exact absurd hacq (by simp)
  refine ⟨hh, handler_no_dispatch env sd, ?_⟩
  rw [hh]
  show errorLogCount (evs ++ [.logError (badImageMsg ty ref)]) = 1
  rw [errorLogCount_append, hzero]
  rfl

/-- C7 witness: the theorem at a concrete environment whose bytes never
decode. -/
theorem C7_decode_failure_one_log_witness :
    acquire envBadImage sdC1 =
      some ("URL", "http://example.com/a.jpg",
        (.error .unidentifiedImage, [.fetch "http://example.com/a.jpg"])) ∧
    (async_handle_service envBadImage sdC1 =
      (.completed, [.fetch "http://example.com/a.jpg",
        .logError (badImageMsg "URL" "http://example.com/a.jpg")]) ∧
     dispatchCount (async_handle_service envBadImage sdC1).2 = 0 ∧
     errorLogCount (async_handle_service envBadImage sdC1).2 = 1) :=
  ⟨rfl, C7_decode_failure_one_log envBadImage sdC1 "URL" "http://example.com/a.jpg"
    [.fetch "http://example.com/a.jpg"] rfl⟩

/-- C9: when acquisition returns the falsy `None` or the falsy empty color
list, the handler completes normally with no error raised and zero downstream
dispatch calls — the dispatch loop sits under `if colors:`. -/
theorem C9_falsy_colors_no_dispatch (env : Env) (sd : ServiceData)
    (ty ref : String) (r : Option (List RGB)) (evs : List Event)
    (hacq : acquire env sd = some (ty, ref, (.ok r, evs)))
    (hr : r = none ∨ r = some []) :
    async_handle_service env sd = (.completed, evs) ∧
    dispatchCount (async_handle_service env sd).2 = 0 := by
  have hh : async_handle_service env sd = (.completed, evs) := by
    rw [handler_eq env sd ty ref _ hacq]
    rcases hr with hr | hr <;> rw [hr] <;> rfl
  exact ⟨hh, handler_no_dispatch env sd⟩

/-- C9 witness: the theorem at a concrete environment whose palette call
returns the empty list. -/
theorem C9_falsy_colors_no_dispatch_witness :
    acquire envEmptyPalette sdC9 =
      some ("URL", "http://example.com/a.jpg",
        (.ok (some []), [.fetch "http://example.com/a.jpg"])) ∧
    (async_handle_service envEmptyPalette sdC9 =
      (.completed, [.fetch "http://example.com/a.jpg"]) ∧
     dispatchCount (async_handle_service envEmptyPalette sdC9).2 = 0) :=
  ⟨rfl, C9_falsy_colors_no_dispatch envEmptyPalette sdC9 "URL"
    "http://example.com/a.jpg" (some []) [.fetch "http://example.com/a.jpg"]
    rfl (Or.inr rfl)⟩

/-- C10: when the entity_id value is a bare string, lines 149-152 wrap it
into a one-element list before the zip, so at most one downstream turn-on
call can be issued for the request however many colors the extractor
returned. -/
theorem C10_string_entity_wrapped (env : Env) (sd : ServiceData) (s : String)
    (h : sd.entity_id = .str s) :
    EntityField.targets sd.entity_id = [s] ∧
    dispatchCount (async_handle_service env sd).2 ≤ 1 := by
  refine ⟨by rw [h]; rfl, ?_⟩
  rw [handler_no_dispatch]
  exact Nat.zero_le 1

/-- C10 witness: the theorem at the concrete string-entity request `sdC2`. -/
theorem C10_string_entity_wrapped_witness :
    sdC2.entity_id = .str "light.a" ∧
    (EntityField.targets sdC2.entity_id = ["light.a"] ∧
     dispatchCount (async_handle_service envC3 sdC2).2 ≤ 1) :=
  ⟨rfl, C10_string_entity_wrapped envC3 sdC2 "light.a" rfl⟩

/-- C8: the schema accepts a raw request only if exactly one of the URL and
path keys is present and the remaining fields conform to the extended
light.turn_on entity schema; a rejected request never reaches the handler,
so no I/O and no downstream call happens; and both-present as well as
neither-present requests are rejected. -/
theorem C8_schema_exactly_one (env : Env) (r : RawRequest) :
    (SERVICE_SCHEMA r = true →
      ((r.url.isSome && !r.path.isSome) || (!r.url.isSome && r.path.isSome)) = true ∧
      r.entity_schema_ok = true) ∧
    (SERVICE_SCHEMA r = false → handle_entry env r = (.rejected, [])) ∧
    (r.url.isSome = true → r.path.isSome = true → SERVICE_SCHEMA r = false) ∧
    (r.url = none → r.path = none → SERVICE_SCHEMA r = false) := by
  refine ⟨?_, ?_, ?_, ?_⟩
  · intro h
    refine ⟨?_, ?_⟩ <;>
      cases hu : r.url <;> cases hp : r.path <;>
      simp_all [SERVICE_SCHEMA, has_at_least_one_key, exclusive_ok, value_checks_ok]
  · intro h
    unfold handle_entry
    rw [h]
    rfl
  · intro h1 h2
    simp [SERVICE_SCHEMA, exclusive_ok, h1, h2]
  · intro h1 h2
    simp [SERVICE_SCHEMA, has_at_least_one_key, h1, h2]

/-- C8 witness: a request carrying both image keys is rejected with an empty
trace. -/
theorem C8_schema_exactly_one_witness :
    SERVICE_SCHEMA rBoth = false ∧ handle_entry envC1 rBoth = (.rejected, []) := by
  have h := C8_schema_exactly_one envC1 rBoth
  have hb : SERVICE_SCHEMA rBoth = false := h.2.2.1 rfl rfl
  exact ⟨hb, h.2.1 hb⟩

end ColorPaletteExtractor
